import Mathlib

/-!
Shallow embedding of the orchestration and resilience engine of the kosmo
repository (src/kosmo/errors.py and src/kosmo/agent.py), together with
theorems checking the natural-language specification against it.

Strings are modelled by Lean `String`; Python's case-insensitive substring
tests (`pattern in message.lower()`) are modelled by `strContains` over the
underlying character lists, and `str.lower` by mapping `Char.toLower`
(all strings involved are ASCII). Wall-clock time is an abstract `Nat`
passed explicitly; `time.sleep` has no observable effect in the model.
The LLM reasoning engine is opaque in the source (an external service), so
it is a parameter: a function from the 0-based attempt index to the outcome
of that invocation.
-/

namespace Kosmo

/-! ### String helpers (Python `in`, `str.lower`, `str.join`) -/

/-- Python `str.lower` (ASCII). -/
def strLower (s : String) : String := ⟨s.data.map Char.toLower⟩

/-- Is `n` a prefix of `h`? -/
def isPrefixChars : List Char → List Char → Bool
  | [], _ => true
  | _ :: _, [] => false
  | a :: as, b :: bs => a == b && isPrefixChars as bs

/-- Does `n` occur as a contiguous substring of `h`? -/
def containsChars (n : List Char) : List Char → Bool
  | [] => n.isEmpty
  | c :: rest => isPrefixChars n (c :: rest) || containsChars n rest

/-- Python `pat in hay` for strings (unanchored substring test). -/
def strContains (hay pat : String) : Bool := containsChars pat.data hay.data

/-- Python `sep.join(parts)`. -/
def strJoin (sep : String) : List String → String
  | [] => ""
  | [x] => x
  | x :: y :: rest => x ++ sep ++ strJoin sep (y :: rest)

/-! ### errors.py: taxonomy -/

/-- The `ErrorSeverity` enum from errors.py. -/
inductive ErrorSeverity where
  | WARNING
  | RECOVERABLE
  | CRITICAL
deriving DecidableEq, Repr

/-- The `ErrorCategory` enum from errors.py. -/
inductive ErrorCategory where
  | API_ERROR
  | NETWORK_ERROR
  | RATE_LIMIT
  | TIMEOUT
  | AUTHENTICATION
  | VALIDATION
  | EXECUTION
  | NOT_FOUND
  | UNKNOWN
deriving DecidableEq, Repr

/-- The `ERROR_PATTERNS` table from errors.py; a Python dict iterated in insertion
order, hence a list of pairs here, in the source's insertion order. -/
def ERROR_PATTERNS : List (ErrorCategory × List String) :=
  [ (.RATE_LIMIT, ["rate limit", "too many requests", "quota exceeded", "429"]),
    (.TIMEOUT, ["timeout", "timed out", "connection timeout"]),
    (.NETWORK_ERROR,
      ["connection error", "network error", "unreachable", "connection refused",
       "dns resolution"]),
    (.AUTHENTICATION,
      ["api key not found", "unauthorized", "authentication failed",
       "invalid api key", "403", "401"]),
    (.NOT_FOUND, ["not found", "404", "no results", "does not exist"]),
    (.EXECUTION,
      ["syntax error", "execution error", "runtime error", "name error",
       "type error"]) ]

/-- The loop body of `classify_error`: first category any of whose patterns
occurs in the (already lowercased) message. -/
def classifyGo (lower : String) : List (ErrorCategory × List String) → ErrorCategory
  | [] => .UNKNOWN
  | (cat, pats) :: rest =>
    if pats.any (fun p => strContains lower p) then cat else classifyGo lower rest

/-- Function `classify_error` from errors.py. -/
def classify_error (msg : String) : ErrorCategory :=
  classifyGo (strLower msg) ERROR_PATTERNS

/-- Modelled from the spec's words (§4.1) for the refinement check of C4:
the first category in the fixed priority order one of whose patterns occurs
as a case-insensitive unanchored substring of the message; `Unknown`
otherwise. -/
def classifySpec (msg : String) : ErrorCategory :=
  match ERROR_PATTERNS.find? (fun cp => cp.2.any (fun p => strContains (strLower msg) p)) with
  | some cp => cp.1
  | none => .UNKNOWN

/-- Function `is_transient_error` from errors.py. -/
def is_transient_error (category : ErrorCategory) : Bool :=
  category ∈ [ErrorCategory.RATE_LIMIT, .TIMEOUT, .NETWORK_ERROR]

/-! ### errors.py: error values and their construction paths -/

/-- The observable fields of a `KosmoError` value (`original_error` is an
opaque Python exception object carried only for logging; it is dropped). -/
structure KosmoErrorV where
  message : String
  category : ErrorCategory
  severity : ErrorSeverity
  tool_name : Option String
  suggestion : Option String
deriving DecidableEq, Repr

/-- Constructor `KosmoError.__init__` (Python defaults `category=UNKNOWN`,
`severity=RECOVERABLE` are passed explicitly by callers here). -/
def mkKosmoError (message : String) (category : ErrorCategory)
    (severity : ErrorSeverity) (tool_name : Option String)
    (suggestion : Option String) : KosmoErrorV :=
  { message := message, category := category, severity := severity,
    tool_name := tool_name, suggestion := suggestion }

/-- Constructor `APIError.__init__` from errors.py. -/
def mkAPIError (message : String) (tool_name : Option String)
    (suggestion : Option String) : KosmoErrorV :=
  mkKosmoError message .API_ERROR .RECOVERABLE tool_name
    (some (suggestion.getD "Try using an alternative tool or rephrasing the query."))

/-- Constructor `NetworkError.__init__` from errors.py. -/
def mkNetworkError (message : String) (tool_name : Option String) : KosmoErrorV :=
  mkKosmoError message .NETWORK_ERROR .RECOVERABLE tool_name
    (some "Check your internet connection and try again.")

/-- Constructor `RateLimitError.__init__` from errors.py. -/
def mkRateLimitError (message : String) (tool_name : Option String)
    (retry_after : Option Nat) : KosmoErrorV :=
  let suggestion :=
    match retry_after with
    | some n => s!"Rate limited. Try again after {n} seconds."
    | none => "Wait a moment and try again."
  mkKosmoError message .RATE_LIMIT .RECOVERABLE tool_name (some suggestion)

/-- Constructor `AuthenticationError.__init__` from errors.py. -/
def mkAuthenticationError (message : String) (tool_name : Option String)
    (missing_key : Option String) : KosmoErrorV :=
  let suggestion :=
    match missing_key with
    | some k => s!"Missing API key: {k}. Add it to your .env file."
    | none => "Check that your API keys are correctly configured in .env file."
  mkKosmoError message .AUTHENTICATION .CRITICAL tool_name (some suggestion)

/-- Constructor `ExecutionError.__init__` from errors.py. -/
def mkExecutionError (message : String) : KosmoErrorV :=
  mkKosmoError message .EXECUTION .RECOVERABLE (some "execute_code")
    (some "Check the code for syntax errors or unsupported operations.")

/-- Constructor `TimeoutError.__init__` from errors.py. -/
def mkTimeoutError (message : String) (tool_name : Option String) : KosmoErrorV :=
  mkKosmoError message .TIMEOUT .RECOVERABLE tool_name
    (some "The request timed out. Try a simpler query or try again later.")

/-- Function `get_fallback_suggestion` from errors.py. -/
def get_fallback_suggestion (tool_name : String) (category : ErrorCategory) : String :=
  let lookup : List (String × List (ErrorCategory × String)) :=
    [ ("web_search",
        [ (.API_ERROR, "Try using search_wikipedia for basic facts instead."),
          (.RATE_LIMIT, "Wait and retry, or use search_wikipedia as a fallback."),
          (.AUTHENTICATION, "Check TAVILY_API_KEY in .env file."),
          (.NETWORK_ERROR, "Check internet connection. Use cached knowledge if available.") ]),
      ("search_wikipedia",
        [ (.NOT_FOUND, "Try a different search term or use web_search for broader results."),
          (.NETWORK_ERROR, "Check internet connection and retry."),
          (.TIMEOUT, "Wikipedia may be slow. Try again with a simpler query.") ]),
      ("execute_code",
        [ (.EXECUTION, "Review the code for errors. Try breaking into smaller steps."),
          (.TIMEOUT, "The code may be too complex. Simplify the computation.") ]),
      ("create_plot",
        [ (.EXECUTION, "Check matplotlib code syntax. Ensure plt.plot() or similar is called.") ]) ]
  let tool_fallbacks := ((lookup.find? (fun p => p.1 == tool_name)).map Prod.snd).getD []
  (((tool_fallbacks.find? (fun p => p.1 == category)).map Prod.snd).getD
    "Try an alternative approach or rephrase your query.")

/-! ### errors.py: ErrorHandler -/

/-- One entry of `ErrorHandler.error_log`. -/
structure ErrorRecord where
  tool : String
  category : ErrorCategory
  message : String
  is_transient : Bool
deriving DecidableEq, Repr

/-- The mutable state of an `ErrorHandler` (the `verbose` flag only controls
printing and is dropped). -/
structure ErrorHandlerState where
  error_log : List ErrorRecord
deriving DecidableEq, Repr

/-- Method `ErrorHandler.handle_tool_error`: classifies, builds the logged
`KosmoError`, appends a log record, and returns the error together with the
new handler state (the Python method returns `kosmo_error.to_user_message()`;
the error value itself is kept here so its severity is observable). -/
def handle_tool_error (st : ErrorHandlerState) (tool_name : String)
    (error_message : String) : KosmoErrorV × ErrorHandlerState :=
  let category := classify_error error_message
  let is_transient := is_transient_error category
  let suggestion := get_fallback_suggestion tool_name category
  let kosmo_error :=
    mkKosmoError error_message category
      (if is_transient then .RECOVERABLE else .WARNING)
      (some tool_name) (some suggestion)
  let record : ErrorRecord :=
    { tool := tool_name, category := category, message := error_message,
      is_transient := is_transient }
  (kosmo_error, { st with error_log := st.error_log ++ [record] })

/-- The full set of known tools, from `get_degradation_message`. -/
def available_tools : List String :=
  ["web_search", "search_wikipedia", "execute_code", "create_plot"]

/-- Method `ErrorHandler.get_degradation_message` from errors.py. `failed_tools` is
the list the agent passes (`list(self._failed_tools)`). -/
def get_degradation_message (failed_tools : List String) : String :=
  if failed_tools = [] then ""
  else
    let working_tools := available_tools.filter (fun t => !(failed_tools.contains t))
    if working_tools = [] then
      "All tools are currently unavailable. I can only provide information from my training data."
    else
      let first :=
        "Note: " ++ strJoin ", " failed_tools ++ " " ++
          (if failed_tools.length = 1 then "is" else "are") ++ " currently unavailable."
      let parts := [first]
      let parts :=
        if failed_tools.contains "web_search" && working_tools.contains "search_wikipedia" then
          parts ++ ["Using Wikipedia for fact lookup instead of web search."]
        else parts
      let parts :=
        if failed_tools.contains "create_plot" then
          parts ++ ["Unable to generate visualizations. Providing numerical results only."]
        else parts
      strJoin " " parts

/-- Method `ErrorHandler.get_error_summary`: counts log entries per category value. -/
def get_error_summary (st : ErrorHandlerState) (c : ErrorCategory) : Nat :=
  (st.error_log.filter (fun r => r.category == c)).length

/-- The first sentence of the degradation notice, listing the failed
tools (named for the statements about `get_degradation_message`). -/
def degradationFirstSentence (failed_tools : List String) : String :=
  "Note: " ++ strJoin ", " failed_tools ++ " " ++
    (if failed_tools.length = 1 then "is" else "are") ++ " currently unavailable."

/-! ### agent.py: tool retry wrapper -/

/-- Constant `MAX_RETRIES` from agent.py. -/
def MAX_RETRIES : Nat := 3

/-- Constant `INCOMPLETE_INDICATORS` from agent.py. -/
def INCOMPLETE_INDICATORS : List String :=
  ["error:", "failed to", "could not", "unable to", "no results found",
   "api key not found", "rate limit", "timeout", "connection error"]

/-- Function `_is_result_incomplete` from agent.py (`not result` is the empty
string). -/
def _is_result_incomplete (result : String) : Bool :=
  if result = "" then true
  else INCOMPLETE_INDICATORS.any (fun ind => strContains (strLower result) ind)

/-- The retry-triggering phrase test inside `_wrap_tool_with_retry`:
`any(err in result.lower() for err in [...])`. -/
def retryPhraseMatch (result : String) : Bool :=
  ["rate limit", "timeout", "connection error", "api error"].any
    (fun err => strContains (strLower result) err)

/-- One invocation of the underlying tool: Python code either returns a
string or raises an exception carrying a message. -/
inductive ToolOutcome where
  | ok (result : String)
  | raises (msg : String)
deriving DecidableEq, Repr

/-- The `for attempt in range(max_retries)` loop of the function returned by
`_wrap_tool_with_retry`, as a recursion on the number of remaining loop
iterations (`attempt = max_retries - remaining`). Returns the string the
wrapper returns together with the number of underlying tool calls performed.
The `remaining = 0` case is the fall-through after the loop: it is reached
only when `range(max_retries)` is empty, so `result` is not in `locals()`
and the Python code returns the `"Failed after …"` string with zero calls
made. `time.sleep` between attempts is not observable. -/
def wrappedGo (tool : Nat → ToolOutcome) (max_retries : Nat) :
    Nat → String × Nat
  | 0 => (s!"Failed after {max_retries} attempts", 0)
  | remaining + 1 =>
    let attempt := max_retries - (remaining + 1)
    match tool attempt with
    | .ok result =>
      if _is_result_incomplete result && decide (attempt < max_retries - 1)
          && retryPhraseMatch result then
        let (r, n) := wrappedGo tool max_retries remaining
        (r, n + 1)
      else (result, 1)
    | .raises e =>
      if attempt < max_retries - 1 then
        let (r, n) := wrappedGo tool max_retries remaining
        (r, n + 1)
      else (s!"Error after {max_retries} attempts: {e}", 1)

/-- The function returned by `_wrap_tool_with_retry(tool, max_retries)`,
applied to one argument tuple: runs the retry loop from attempt 0
(the Python default for `max_retries` is `MAX_RETRIES`; it is passed
explicitly here). -/
def wrapped_func (tool : Nat → ToolOutcome) (max_retries : Nat) :
    String × Nat :=
  wrappedGo tool max_retries max_retries

/-! ### agent.py: KosmoAgent -/

/-- Method `KosmoAgent._check_response_complete`. Returns
`(is_complete, retry_reason)`. -/
def _check_response_complete (response : String) : Bool × Option String :=
  if response = "" || response = "No response generated." then
    (false, some "empty_response")
  else
    let failure_phrases :=
      ["i was unable to", "i couldn't complete", "the tool failed",
       "error occurred", "i apologize, but i cannot"]
    if failure_phrases.any (fun p => strContains (strLower response) p) then
      (false, some "tool_failure")
    else (true, none)

/-- Method `KosmoAgent._format_error_response`. -/
def _format_error_response (error : String) : String :=
  let category := classify_error error
  let msg := s!"I encountered an error while processing your request: {error}\n"
  if category = .AUTHENTICATION then
    msg ++ "\nPlease check that your API keys are correctly configured in the .env file."
  else if category = .NETWORK_ERROR then
    msg ++ "\nPlease check your internet connection and try again."
  else if category = .RATE_LIMIT then
    msg ++ "\nThe service is rate-limited. Please wait a moment and try again."
  else
    msg ++ "\nPlease try rephrasing your question or try again later."

/-- Method `KosmoAgent._format_degraded_response` (the same logic is inlined in the
complete-response branch of `query`): appends the degradation notice when
graceful degradation is on, some tools have failed, the notice is non-empty
and not already contained in the response. -/
def _format_degraded_response (graceful_degradation : Bool)
    (failed_tools : List String) (response : String) : String :=
  if graceful_degradation && !(failed_tools = []) then
    let notice := get_degradation_message failed_tools
    if !(notice = "") && !(strContains response notice) then
      response ++ "\n\n---\n" ++ notice
    else response
  else response

/-- One invocation of the ReAct reasoning engine inside `KosmoAgent.query`,
as observed by the retry loop: either `agent.invoke` raises an exception
with a message, or it returns and `_extract_response` yields a response
string (`""` models the falsy `None`/empty extraction result). The engine is
an external black box, so it is a function of the 0-based attempt index. -/
inductive EngineOutcome where
  | raises (msg : String)
  | returns (response : String)
deriving DecidableEq, Repr

/-- The `for attempt in range(self.max_retries)` loop of `KosmoAgent.query`,
as a recursion on remaining iterations (`attempt = max_retries - remaining`).
Returns the response string `query` returns and the number of reasoning-engine
invocations (`agent.invoke` calls) performed. The `remaining = 0` case is the
fall-through `return self._format_degraded_response(last_response)` after the
loop. A falsy extracted response skips the whole `if response:` block and
falls through to the next iteration, leaving `last_response` unchanged. -/
def queryGo (engine : Nat → EngineOutcome) (max_retries : Nat)
    (graceful_degradation : Bool) (failed_tools : List String) :
    Nat → String → String × Nat
  | 0, last_response =>
    (_format_degraded_response graceful_degradation failed_tools last_response, 0)
  | remaining + 1, last_response =>
    let attempt := max_retries - (remaining + 1)
    match engine attempt with
    | .returns response =>
      if response = "" then
        let (r, n) := queryGo engine max_retries graceful_degradation failed_tools
          remaining last_response
        (r, n + 1)
      else
        let (is_complete, _retry_reason) := _check_response_complete response
        if is_complete then
          (_format_degraded_response graceful_degradation failed_tools response, 1)
        else if attempt < max_retries - 1 then
          let (r, n) := queryGo engine max_retries graceful_degradation failed_tools
            remaining response
          (r, n + 1)
        else
          (_format_degraded_response graceful_degradation failed_tools response, 1)
    | .raises e =>
      let category := classify_error e
      if is_transient_error category && decide (attempt < max_retries - 1) then
        let (r, n) := queryGo engine max_retries graceful_degradation failed_tools
          remaining last_response
        (r, n + 1)
      else (_format_error_response e, 1)

/-- One entry of `KosmoAgent._sessions` (timestamps are abstract `Nat`
instants; `last_query_at` is absent until the first query). -/
structure SessionInfo where
  created_at : Nat
  query_count : Nat
  last_query_at : Option Nat
deriving DecidableEq, Repr

/-- Association-list lookup for the `_sessions` dict. -/
def slookup : List (String × SessionInfo) → String → Option SessionInfo
  | [], _ => none
  | p :: rest, tid => if p.1 == tid then some p.2 else slookup rest tid

/-- In-place value update for the `_sessions` dict. -/
def supdate : List (String × SessionInfo) → String → (SessionInfo → SessionInfo) →
    List (String × SessionInfo)
  | [], _, _ => []
  | p :: rest, tid, f =>
    (if p.1 == tid then (p.1, f p.2) else p) :: supdate rest tid f

/-- The state of a `KosmoAgent` that `query` reads and writes (prompt/LLM
caches, message history and verbose printing do not affect the modelled
observables and are omitted; the opaque reasoning engine is passed to `query`
directly). -/
structure AgentState where
  max_retries : Nat
  graceful_degradation : Bool
  failed_tools : List String
  sessions : List (String × SessionInfo)
  current_thread_id : String
deriving DecidableEq, Repr

/-- Method `KosmoAgent.query`: resolves the effective thread id, creates the session
record on first reference, increments `query_count` and stamps
`last_query_at`, then runs the retry loop. Returns the response, the new
agent state, and the number of reasoning-engine invocations. `now` is the
current wall-clock instant (`time.time()`). -/
def query (st : AgentState) (engine : Nat → EngineOutcome) (thread_id : Option String)
    (now : Nat) : String × AgentState × Nat :=
  let effective_thread_id := thread_id.getD st.current_thread_id
  let sessions1 :=
    if (slookup st.sessions effective_thread_id).isSome then st.sessions
    else st.sessions ++
      [(effective_thread_id,
        { created_at := now, query_count := 0, last_query_at := none })]
  let sessions2 := supdate sessions1 effective_thread_id
    (fun s => { s with query_count := s.query_count + 1, last_query_at := some now })
  let pair :=
    queryGo engine st.max_retries st.graceful_degradation st.failed_tools
      st.max_retries "No response generated."
  (pair.1, { st with sessions := sessions2 }, pair.2)

/-- Method `KosmoAgent._handle_tool_failure`: graceful degradation adds the tool to
the failed set and routes the error through the handler (Python's
`set.add`; the model keeps the list free of duplicates). -/
def _handle_tool_failure (st : AgentState) (hst : ErrorHandlerState)
    (tool_name : String) (error_message : String) : AgentState × ErrorHandlerState :=
  if st.graceful_degradation then
    let failed :=
      if st.failed_tools.contains tool_name then st.failed_tools
      else st.failed_tools ++ [tool_name]
    ({ st with failed_tools := failed },
      (handle_tool_error hst tool_name error_message).2)
  else (st, hst)

/-- A small concrete agent state shared by the scenario theorems: fresh
agent with graceful degradation on, no failed tools, no sessions. -/
def demoState (m : Nat) : AgentState :=
  { max_retries := m, graceful_degradation := true, failed_tools := [],
    sessions := [], current_thread_id := "t0" }

/-- The patterns of the three transient categories of `ERROR_PATTERNS`,
which sit ahead of `AUTHENTICATION` in the priority order. -/
def transientCategoryPatterns : List String :=
  ["rate limit", "too many requests", "quota exceeded", "429",
   "timeout", "timed out", "connection timeout",
   "connection error", "network error", "unreachable", "connection refused",
   "dns resolution"]

/-! ### Helper lemmas about the string containment test -/

theorem isPrefixChars_append_right {n h : List Char} (b : List Char)
    (hp : isPrefixChars n h = true) : isPrefixChars n (h ++ b) = true := by
  induction n generalizing h with
  | nil => simp [isPrefixChars]
  | cons a as ih =>
    cases h with
    | nil => simp [isPrefixChars] at hp
    | cons c cs =>
      simp only [isPrefixChars, Bool.and_eq_true] at hp ⊢
      exact ⟨hp.1, ih hp.2⟩

theorem isPrefixChars_self (n : List Char) : isPrefixChars n n = true := by
  induction n with
  | nil => rfl
  | cons a as ih => simp [isPrefixChars, ih]

theorem containsChars_nil_left (h : List Char) : containsChars [] h = true := by
  cases h with
  | nil => rfl
  | cons c cs => simp [containsChars, isPrefixChars]

theorem containsChars_self (n : List Char) : containsChars n n = true := by
  cases n with
  | nil => rfl
  | cons c cs => simp [containsChars, isPrefixChars_self]

theorem containsChars_append_right {n h : List Char} (b : List Char)
    (hc : containsChars n h = true) : containsChars n (h ++ b) = true := by
  induction h with
  | nil =>
    simp only [containsChars, List.isEmpty_iff] at hc
    subst hc
    simpa using containsChars_nil_left b
  | cons c cs ih =>
    simp only [containsChars, Bool.or_eq_true] at hc ⊢
    rcases hc with hp | hrest
    · exact Or.inl (isPrefixChars_append_right b hp)
    · exact Or.inr (ih hrest)

theorem containsChars_append_left {n h : List Char} (a : List Char)
    (hc : containsChars n h = true) : containsChars n (a ++ h) = true := by
  induction a with
  | nil => simpa using hc
  | cons x xs ih =>
    simp only [List.cons_append, containsChars, Bool.or_eq_true]
    exact Or.inr ih

/-- A pattern occurs in any string of which it is the middle piece. -/
theorem containsChars_of_middle (a n b : List Char) :
    containsChars n (a ++ n ++ b) = true := by
  rw [List.append_assoc]
  exact containsChars_append_left a (containsChars_append_right b (containsChars_self n))

theorem strContains_append_self (a b : String) :
    strContains (a ++ b) b = true := by
  show containsChars b.data (a ++ b).data = true
  rw [String.data_append]
  exact containsChars_append_left a.data (containsChars_self b.data)

theorem strContains_trans_append (a s b t : String)
    (h : strContains s t = true) :
    strContains (a ++ s ++ b) t = true := by
  show containsChars t.data (a ++ s ++ b).data = true
  rw [String.data_append, String.data_append]
  rw [List.append_assoc]
  exact containsChars_append_left a.data (containsChars_append_right b.data h)

theorem strContains_append_right_of (s b t : String)
    (h : strContains s t = true) : strContains (s ++ b) t = true := by
  show containsChars t.data (s ++ b).data = true
  rw [String.data_append]
  exact containsChars_append_right b.data h

theorem strContains_append_left_of (a s t : String)
    (h : strContains s t = true) : strContains (a ++ s) t = true := by
  show containsChars t.data (a ++ s).data = true
  rw [String.data_append]
  exact containsChars_append_left a.data h

/-- Every member of a joined list occurs in the join. -/
theorem strContains_strJoin (sep : String) {t : String} :
    ∀ {l : List String}, t ∈ l → strContains (strJoin sep l) t = true := by
  intro l
  induction l with
  | nil => intro h; cases h
  | cons x rest ih =>
    intro hmem
    cases rest with
    | nil =>
      rcases List.mem_singleton.mp hmem with rfl
      show containsChars t.data (strJoin sep [t]).data = true
      exact containsChars_self t.data
    | cons y rest2 =>
      rcases List.mem_cons.mp hmem with rfl | hmem2
      · show strContains (t ++ sep ++ strJoin sep (y :: rest2)) t = true
        exact strContains_append_right_of _ _ _ (strContains_append_right_of _ _ _
          (by show containsChars t.data t.data = true; exact containsChars_self t.data))
      · show strContains (x ++ sep ++ strJoin sep (y :: rest2)) t = true
        exact strContains_append_left_of _ _ _ (ih hmem2)

/-- A string containing a non-empty pattern is itself non-empty. -/
theorem ne_empty_of_strContains {s t : String} (ht : t.data ≠ [])
    (h : strContains s t = true) : s ≠ "" := by
  intro hs
  subst hs
  have : containsChars t.data ([] : List Char) = true := h
  simp only [containsChars, List.isEmpty_iff] at this
  exact ht this

/-! ### Helper lemmas about the session store -/

theorem slookup_append_of_none {l : List (String × SessionInfo)} {k : String}
    (v : SessionInfo) (h : slookup l k = none) :
    slookup (l ++ [(k, v)]) k = some v := by
  induction l with
  | nil => simp [slookup]
  | cons p rest ih =>
    by_cases hk : (p.1 == k) = true
    · simp [slookup, hk] at h
    · simp only [slookup, hk] at h
      simp only [List.cons_append, slookup, hk, Bool.false_eq_true, if_false]
      exact ih h

theorem slookup_supdate_self (l : List (String × SessionInfo)) (k : String)
    (f : SessionInfo → SessionInfo) :
    slookup (supdate l k f) k = (slookup l k).map f := by
  induction l with
  | nil => rfl
  | cons p rest ih =>
    by_cases hk : (p.1 == k) = true
    · simp [supdate, slookup, hk]
    · simp [supdate, slookup, hk, ih]

/-- The session record of the effective thread after `query`: created on
first reference, `query_count` bumped by one, `last_query_at` stamped. -/
theorem query_session_lookup (st : AgentState) (engine : Nat → EngineOutcome)
    (tid : Option String) (now : Nat) :
    slookup (query st engine tid now).2.1.sessions (tid.getD st.current_thread_id) =
      some { created_at :=
               ((slookup st.sessions (tid.getD st.current_thread_id)).map
                 SessionInfo.created_at).getD now,
             query_count :=
               ((slookup st.sessions (tid.getD st.current_thread_id)).map
                 SessionInfo.query_count).getD 0 + 1,
             last_query_at := some now } := by
  cases h : slookup st.sessions (tid.getD st.current_thread_id) with
  | some s =>
    simp only [query, h, Option.isSome_some, if_true, slookup_supdate_self]
    rfl
  | none =>
    simp only [query, h, Option.isSome_none, Bool.false_eq_true, if_false,
      slookup_supdate_self, slookup_append_of_none _ h]
    rfl

/-! ### Helper lemmas about the error classifier -/

theorem classifyGo_eq_find (lower : String) :
    ∀ l : List (ErrorCategory × List String),
      classifyGo lower l =
        match l.find? (fun cp => cp.2.any (fun p => strContains lower p)) with
        | some cp => cp.1
        | none => ErrorCategory.UNKNOWN := by
  intro l
  induction l with
  | nil => rfl
  | cons hd tl ih =>
    rcases hd with ⟨cat, pats⟩
    simp only [classifyGo, List.find?_cons]
    by_cases h : pats.any (fun p => strContains lower p) = true
    · simp [h]
    · simp only [h, Bool.false_eq_true, if_false]
      exact ih

/-! ### Helper lemma about the tool retry wrapper -/

theorem wrappedGo_calls_le (tool : Nat → ToolOutcome) (m : Nat) :
    ∀ rem : Nat, (wrappedGo tool m rem).2 ≤ rem := by
  intro rem
  induction rem with
  | zero => simp [wrappedGo]
  | succ k ih =>
    simp only [wrappedGo]
    cases tool (m - (k + 1)) with
    | ok r =>
      by_cases hc :
          (_is_result_incomplete r && decide (m - (k + 1) < m - 1)
            && retryPhraseMatch r) = true
      · rcases he : wrappedGo tool m k with ⟨r', n'⟩
        simp only [hc, if_true, he]
        have := ih
        rw [he] at this
        exact Nat.succ_le_succ this
      · simp only [hc, Bool.false_eq_true, if_false]
        exact Nat.one_le_iff_ne_zero.mpr (Nat.succ_ne_zero 0) |>.trans (Nat.le_add_left 1 k)
    | raises e =>
      by_cases hc : m - (k + 1) < m - 1
      · rcases he : wrappedGo tool m k with ⟨r', n'⟩
        simp only [hc, if_true, he]
        have := ih
        rw [he] at this
        exact Nat.succ_le_succ this
      · simp only [hc, if_false]
        exact Nat.le_add_left 1 k

/-! ### C4 -/

/-- C4: `classify_error` evaluates the categories in the fixed priority
order of `ERROR_PATTERNS` (RateLimit, Timeout, NetworkError, Authentication,
NotFound, Execution), returning the first category one of whose patterns
occurs as a case-insensitive unanchored substring of the message
(`classifySpec`, written from the spec's words, is the first-match search),
and `UNKNOWN` when no pattern of any category occurs; in particular every
message containing the substring "rate limit" in any case classifies as
`RATE_LIMIT`. -/
theorem classify_error_priority_first_match (msg : String) :
    classify_error msg = classifySpec msg ∧
      (strContains (strLower msg) "rate limit" = true →
        classify_error msg = ErrorCategory.RATE_LIMIT) := by
  constructor
  · exact classifyGo_eq_find (strLower msg) ERROR_PATTERNS
  · intro h
    simp only [classify_error, ERROR_PATTERNS, classifyGo, List.any_cons, List.any_nil, h,
      Bool.true_or, if_true]

/-- Witness for C4 at a concrete mixed-case input. -/
theorem classify_error_priority_first_match_witness :
    classify_error "Rate Limit exceeded" = ErrorCategory.RATE_LIMIT :=
  (classify_error_priority_first_match "Rate Limit exceeded").2 (by decide)

/-! ### C5 -/

/-- Counterexample to C5 as stated: the message "timeout 401" contains the
substring "401", yet `classify_error` returns `TIMEOUT` (the Timeout
category has higher priority than Authentication), which is transient — not
`AUTHENTICATION` and not non-transient as the claim asserts for every
message containing "401". -/
theorem classify_auth_counterexample :
    strContains (strLower "timeout 401") "401" = true ∧
      classify_error "timeout 401" = ErrorCategory.TIMEOUT ∧
      is_transient_error (classify_error "timeout 401") = true := by
  refine ⟨by decide, by decide, by decide⟩

/-- C5 (amended): `is_transient_error` is true exactly for `RATE_LIMIT`,
`TIMEOUT` and `NETWORK_ERROR`, and false for every other category including
`UNKNOWN`; and every message containing "invalid api key", "401" or "403"
**that contains no pattern of the higher-priority RateLimit, Timeout or
NetworkError categories** classifies as `AUTHENTICATION` and is not
transient. -/
theorem transient_exactly_and_auth_not_transient (c : ErrorCategory) (msg : String) :
    (is_transient_error c = true ↔
      (c = ErrorCategory.RATE_LIMIT ∨ c = ErrorCategory.TIMEOUT ∨
        c = ErrorCategory.NETWORK_ERROR)) ∧
      ((strContains (strLower msg) "invalid api key" = true ∨
          strContains (strLower msg) "401" = true ∨
          strContains (strLower msg) "403" = true) →
        (∀ p ∈ transientCategoryPatterns, strContains (strLower msg) p = false) →
        classify_error msg = ErrorCategory.AUTHENTICATION ∧
          is_transient_error (classify_error msg) = false) := by
  constructor
  · cases c <;> simp [is_transient_error]
  · intro hauth htrans
    have h01 := htrans "rate limit" (by decide)
    have h02 := htrans "too many requests" (by decide)
    have h03 := htrans "quota exceeded" (by decide)
    have h04 := htrans "429" (by decide)
    have h05 := htrans "timeout" (by decide)
    have h06 := htrans "timed out" (by decide)
    have h07 := htrans "connection timeout" (by decide)
    have h08 := htrans "connection error" (by decide)
    have h09 := htrans "network error" (by decide)
    have h10 := htrans "unreachable" (by decide)
    have h11 := htrans "connection refused" (by decide)
    have h12 := htrans "dns resolution" (by decide)
    have hcl : classify_error msg = ErrorCategory.AUTHENTICATION := by
      simp only [classify_error, ERROR_PATTERNS, classifyGo, List.any_cons, List.any_nil,
        h01, h02, h03, h04, h05, h06, h07, h08, h09, h10, h11, h12,
        Bool.or_self, Bool.or_false, Bool.false_or, Bool.false_eq_true, if_false]
      rcases hauth with h | h | h <;> simp [h]
    refine ⟨hcl, ?_⟩
    rw [hcl]
    decide

/-- Witness for the amended C5 at a concrete input. -/
theorem transient_exactly_and_auth_not_transient_witness :
    classify_error "Error: invalid api key" = ErrorCategory.AUTHENTICATION ∧
      is_transient_error (classify_error "Error: invalid api key") = false :=
  (transient_exactly_and_auth_not_transient ErrorCategory.UNKNOWN
    "Error: invalid api key").2 (Or.inl (by decide)) (by decide)

/-! ### C2 -/

/-- C2: the gateway never performs more than `max_retries` underlying tool
calls; as soon as an attempt returns a result not judged a failure by
`_is_result_incomplete`, that result is returned with exactly one call made
from that attempt on; and for a tool that raises twice then succeeds, with
`max_retries = 3`, the underlying call count is exactly 3 and the returned
value is the success text. -/
theorem gateway_retry_bound_and_success (tool : Nat → ToolOutcome) (m rem : Nat)
    (r : String) :
    (wrapped_func tool m).2 ≤ m ∧
      (0 < rem → tool (m - rem) = ToolOutcome.ok r →
        _is_result_incomplete r = false → wrappedGo tool m rem = (r, 1)) ∧
      wrapped_func
        (fun i => if i < 2 then ToolOutcome.raises "connection error"
                  else ToolOutcome.ok "success") 3 = ("success", 3) := by
  refine ⟨wrappedGo_calls_le tool m m, ?_, by decide⟩
  intro hrem htool hinc
  cases rem with
  | zero => exact absurd hrem (Nat.lt_irrefl 0)
  | succ k =>
    simp only [wrappedGo, htool, hinc, Bool.false_and, Bool.false_eq_true, if_false]

/-- Witness for C2 at concrete inputs: a tool whose first attempt returns a
complete result is called exactly once. -/
theorem gateway_retry_bound_and_success_witness :
    wrappedGo (fun _ => ToolOutcome.ok "The Hubble constant is about 70 km/s/Mpc.") 3 3 =
      ("The Hubble constant is about 70 km/s/Mpc.", 1) :=
  (gateway_retry_bound_and_success
    (fun _ => ToolOutcome.ok "The Hubble constant is about 70 km/s/Mpc.") 3 3
    "The Hubble constant is about 70 km/s/Mpc.").2.1 (by decide) rfl (by decide)

/-! ### C3 -/

/-- Counterexample to C3 as stated: the result "Error: api error" is not
placed in a transient category by the classifier (`classify_error` returns
`UNKNOWN`, which `is_transient_error` rejects), yet the gateway retries it —
its retry test uses the hard-coded phrase list containing "api error", not
the classifier — so with `max_retries = 3` the underlying call count is 3,
not 1 as the claim asserts. -/
theorem gateway_nonretryable_counterexample :
    classify_error "Error: api error" = ErrorCategory.UNKNOWN ∧
      is_transient_error (classify_error "Error: api error") = false ∧
      wrapped_func (fun _ => ToolOutcome.ok "Error: api error") 3 =
        ("Error: api error", 3) := by
  refine ⟨by decide, by decide, by decide⟩

/-- C3 (amended): for a capability that always fails by **returning** a
failure result (rather than raising) whose text contains none of the
gateway's transient retry phrases "rate limit", "timeout",
"connection error", "api error", the gateway performs exactly 1 underlying
call (no retry) and returns the original failure message itself (hence a
failure string containing it). The gateway's retry test is this phrase
list, not the error classifier's categories, and raised exceptions are
retried regardless of their message. -/
theorem gateway_returns_nonretryable_once (msg : String) (m : Nat)
    (hm : 0 < m) (hfail : _is_result_incomplete msg = true)
    (hph : retryPhraseMatch msg = false) :
    wrapped_func (fun _ => ToolOutcome.ok msg) m = (msg, 1) ∧
      strContains (wrapped_func (fun _ => ToolOutcome.ok msg) m).1 msg = true := by
  have hrun : wrapped_func (fun _ => ToolOutcome.ok msg) m = (msg, 1) := by
    cases m with
    | zero => exact absurd hm (Nat.lt_irrefl 0)
    | succ k =>
      simp only [wrapped_func, wrappedGo, hph, Bool.and_false, Bool.false_eq_true, if_false]
  refine ⟨hrun, ?_⟩
  rw [hrun]
  exact containsChars_self msg.data

/-- Witness for the amended C3: a bare "no results found" result is returned
after exactly one call. -/
theorem gateway_returns_nonretryable_once_witness :
    wrapped_func (fun _ => ToolOutcome.ok "no results found") 3 =
      ("no results found", 1) :=
  (gateway_returns_nonretryable_once "no results found" 3 (by decide) (by decide)
    (by decide)).1

/-! ### C1 -/

/-- C1: with `max_retries = 3`, if the reasoning engine's round-1 answer is
"I was unable to complete the calculation." and its round-2 answer is
"The answer is 42.", then `query` returns "The answer is 42." and the engine
is invoked exactly twice; and with `max_retries = 2`, if every round returns
"I was unable to complete.", `query` returns that text (undecorated, since
no capability has failed) and the engine is invoked exactly twice, not
more. -/
theorem query_retry_scenarios :
    (query (demoState 3)
        (fun n => if n = 0 then
            EngineOutcome.returns "I was unable to complete the calculation."
          else EngineOutcome.returns "The answer is 42.") none 0).1 =
        "The answer is 42." ∧
      (query (demoState 3)
        (fun n => if n = 0 then
            EngineOutcome.returns "I was unable to complete the calculation."
          else EngineOutcome.returns "The answer is 42.") none 0).2.2 = 2 ∧
      (query (demoState 2)
        (fun _ => EngineOutcome.returns "I was unable to complete.") none 0).1 =
        "I was unable to complete." ∧
      (query (demoState 2)
        (fun _ => EngineOutcome.returns "I was unable to complete.") none 0).2.2 = 2 := by
  refine ⟨by decide, by decide, by decide, by decide⟩

/-! ### C6 -/

/-- C6: every call to `query` increments the resolved session's
`query_count` by exactly 1 — for every reasoning engine, hence regardless of
how many internal retries the query required — and a session record is
created on first reference to a previously unknown thread id (with
`query_count` 1 and both timestamps stamped with the current instant). -/
theorem query_count_increments_once (st : AgentState) (engine : Nat → EngineOutcome)
    (tid : Option String) (now : Nat) :
    ((slookup (query st engine tid now).2.1.sessions
        (tid.getD st.current_thread_id)).map SessionInfo.query_count).getD 0 =
      ((slookup st.sessions (tid.getD st.current_thread_id)).map
        SessionInfo.query_count).getD 0 + 1 ∧
      (slookup (query st engine tid now).2.1.sessions
        (tid.getD st.current_thread_id)).isSome = true ∧
      (slookup st.sessions (tid.getD st.current_thread_id) = none →
        slookup (query st engine tid now).2.1.sessions (tid.getD st.current_thread_id) =
          some { created_at := now, query_count := 1, last_query_at := some now }) := by
  refine ⟨?_, ?_, ?_⟩
  · rw [query_session_lookup]
    rfl
  · rw [query_session_lookup]
    rfl
  · intro h
    rw [query_session_lookup, h]
    rfl

/-- Witness for C6: querying a fresh thread id creates its record with
`query_count` 1. -/
theorem query_count_increments_once_witness :
    slookup (query (demoState 3) (fun _ => EngineOutcome.returns "fine") (some "s1")
        5).2.1.sessions "s1" =
      some { created_at := 5, query_count := 1, last_query_at := some 5 } :=
  (query_count_increments_once (demoState 3) (fun _ => EngineOutcome.returns "fine")
    (some "s1") 5).2.2 rfl

/-! ### C10 -/

/-- C10: even when `query` returns a formatted error message because the
reasoning engine raised a non-transient error, the resolved session's
`query_count` has been incremented exactly once and its `last_query_at`
timestamp updated to the current instant: the session metadata update
precedes the reasoning loop and is never rolled back. -/
theorem query_error_still_updates_session (st : AgentState) (msg : String)
    (tid : Option String) (now : Nat) (hm : 0 < st.max_retries)
    (htr : is_transient_error (classify_error msg) = false) :
    (query st (fun _ => EngineOutcome.raises msg) tid now).1 =
        _format_error_response msg ∧
      ((slookup (query st (fun _ => EngineOutcome.raises msg) tid now).2.1.sessions
          (tid.getD st.current_thread_id)).map SessionInfo.query_count).getD 0 =
        ((slookup st.sessions (tid.getD st.current_thread_id)).map
          SessionInfo.query_count).getD 0 + 1 ∧
      ((slookup (query st (fun _ => EngineOutcome.raises msg) tid now).2.1.sessions
          (tid.getD st.current_thread_id)).map SessionInfo.last_query_at).getD none =
        some now := by
  refine ⟨?_, ?_, ?_⟩
  · show (queryGo (fun _ => EngineOutcome.raises msg) st.max_retries
      st.graceful_degradation st.failed_tools st.max_retries "No response generated.").1 =
      _format_error_response msg
    rcases hk : st.max_retries with _ | k
    · rw [hk] at hm
      exact absurd hm (Nat.lt_irrefl 0)
    · simp only [queryGo, htr, Bool.false_and, Bool.false_eq_true, if_false]
  · rw [query_session_lookup]
    rfl
  · rw [query_session_lookup]
    rfl

/-- Witness for C10: a not-found-flavored engine failure still bumps the
fresh session's count and stamps its last-activity time. -/
theorem query_error_still_updates_session_witness :
    (query (demoState 2) (fun _ => EngineOutcome.raises "404 not found") none 7).1 =
        _format_error_response "404 not found" ∧
      ((slookup (query (demoState 2) (fun _ => EngineOutcome.raises "404 not found")
          none 7).2.1.sessions "t0").map SessionInfo.query_count).getD 0 = 1 ∧
      ((slookup (query (demoState 2) (fun _ => EngineOutcome.raises "404 not found")
          none 7).2.1.sessions "t0").map SessionInfo.last_query_at).getD none = some 7 :=
  query_error_still_updates_session (demoState 2) "404 not found" none 7
    (by decide) (by decide)

/-! ### C7 -/

/-- C7: when the reasoning-engine invocation raises, the loop classifies the
message; if the category is transient and attempts remain it retries (one
more engine call on top of the remaining run), and otherwise it returns the
category-specific formatted error with no further engine call:
authentication suggests checking the API-key configuration, network suggests
checking connectivity, rate limit suggests waiting, and every other category
gets the generic retry/rephrase suggestion. In particular an
authentication-flavored error with only one attempt yields a message
mentioning the credential configuration and an engine call count of exactly
1. -/
theorem query_engine_error_handling (e : String) (engine : Nat → EngineOutcome)
    (m k : Nat) (g : Bool) (ft : List String) (last : String) :
    (classify_error e = ErrorCategory.AUTHENTICATION →
      strContains (_format_error_response e)
        "\nPlease check that your API keys are correctly configured in the .env file."
        = true) ∧
    (classify_error e = ErrorCategory.NETWORK_ERROR →
      strContains (_format_error_response e)
        "\nPlease check your internet connection and try again." = true) ∧
    (classify_error e = ErrorCategory.RATE_LIMIT →
      strContains (_format_error_response e)
        "\nThe service is rate-limited. Please wait a moment and try again." = true) ∧
    (classify_error e ≠ ErrorCategory.AUTHENTICATION →
      classify_error e ≠ ErrorCategory.NETWORK_ERROR →
      classify_error e ≠ ErrorCategory.RATE_LIMIT →
      strContains (_format_error_response e)
        "\nPlease try rephrasing your question or try again later." = true) ∧
    (engine (m - (k + 1)) = EngineOutcome.raises e →
      is_transient_error (classify_error e) = true → m - (k + 1) < m - 1 →
      queryGo engine m g ft (k + 1) last =
        ((queryGo engine m g ft k last).1, (queryGo engine m g ft k last).2 + 1)) ∧
    (engine (m - (k + 1)) = EngineOutcome.raises e →
      (is_transient_error (classify_error e) = false ∨ ¬ m - (k + 1) < m - 1) →
      queryGo engine m g ft (k + 1) last = (_format_error_response e, 1)) ∧
    ((query (demoState 1) (fun _ => EngineOutcome.raises "Error: invalid api key")
        none 0).1 = _format_error_response "Error: invalid api key" ∧
      (query (demoState 1) (fun _ => EngineOutcome.raises "Error: invalid api key")
        none 0).2.2 = 1 ∧
      strContains
        (query (demoState 1) (fun _ => EngineOutcome.raises "Error: invalid api key")
          none 0).1
        "Please check that your API keys are correctly configured in the .env file."
        = true) := by
  refine ⟨?_, ?_, ?_, ?_, ?_, ?_, by decide, by decide, by decide⟩
  · intro h
    simp only [_format_error_response, h, if_pos]
    exact strContains_append_self _ _
  · intro h
    have hne : ErrorCategory.NETWORK_ERROR ≠ ErrorCategory.AUTHENTICATION := by decide
    simp only [_format_error_response, h, if_neg hne, if_pos]
    exact strContains_append_self _ _
  · intro h
    have h1 : ErrorCategory.RATE_LIMIT ≠ ErrorCategory.AUTHENTICATION := by decide
    have h2 : ErrorCategory.RATE_LIMIT ≠ ErrorCategory.NETWORK_ERROR := by decide
    simp only [_format_error_response, h, if_neg h1, if_neg h2, if_pos]
    exact strContains_append_self _ _
  · intro h1 h2 h3
    simp only [_format_error_response, if_neg h1, if_neg h2, if_neg h3]
    exact strContains_append_self _ _
  · intro he htr hlt
    rcases hq : queryGo engine m g ft k last with ⟨r', n'⟩
    simp [queryGo, he, htr, hlt, hq]
  · intro he hstop
    have hcond :
        (is_transient_error (classify_error e) && decide (m - (k + 1) < m - 1)) = false := by
      rcases hstop with h | h
      · rw [h]; exact Bool.false_and _
      · rw [decide_eq_false h]; exact Bool.and_false _
    simp only [queryGo, he, hcond, Bool.false_eq_true, if_false]

/-- Witness for C7: an "unauthorized" engine error on the only attempt gives
the formatted error after exactly one call from that point. -/
theorem query_engine_error_handling_witness :
    queryGo (fun _ => EngineOutcome.raises "unauthorized") 1 true [] 1 "x" =
      (_format_error_response "unauthorized", 1) :=
  (query_engine_error_handling "unauthorized"
    (fun _ => EngineOutcome.raises "unauthorized") 1 0 true [] "x").2.2.2.2.2.1
    rfl (Or.inl (by decide))

/-! ### Helper lemmas for the degradation notice -/

theorem data_ne_nil_of_left (a b : String) (ha : a.data ≠ []) :
    (a ++ b).data ≠ [] := by
  rw [String.data_append]
  intro h
  exact ha (List.append_eq_nil.mp h).1

theorem strJoin_cons_ne_empty (sep x : String) (rest : List String)
    (hx : x.data ≠ []) : strJoin sep (x :: rest) ≠ "" := by
  cases rest with
  | nil =>
    intro h
    exact hx (String.ext_iff.mp h)
  | cons y t =>
    intro h
    exact data_ne_nil_of_left (x ++ sep) (strJoin sep (y :: t))
      (data_ne_nil_of_left x sep hx) (String.ext_iff.mp h)

theorem strContains_strJoin_cons (sep x : String) (rest : List String)
    (pat : String) (h : strContains x pat = true) :
    strContains (strJoin sep (x :: rest)) pat = true := by
  cases rest with
  | nil => exact h
  | cons y t =>
    exact strContains_append_right_of _ _ _ (strContains_append_right_of _ _ _ h)

/-- Function `get_degradation_message` in the non-degenerate branch: the leading
sentence listing the failed tools, followed by the applicable fallback
sentences. -/
theorem degradation_normal (failed : List String) (hne : failed ≠ [])
    (hw : available_tools.filter (fun s => !(failed.contains s)) ≠ []) :
    get_degradation_message failed =
      strJoin " "
        (degradationFirstSentence failed ::
          ((if failed.contains "web_search" &&
              (available_tools.filter (fun s => !(failed.contains s))).contains
                "search_wikipedia" then
              ["Using Wikipedia for fact lookup instead of web search."] else []) ++
            (if failed.contains "create_plot" then
              ["Unable to generate visualizations. Providing numerical results only."]
            else []))) := by
  simp only [get_degradation_message, degradationFirstSentence, if_neg hne, if_neg hw]
  by_cases c1 : (failed.contains "web_search" &&
      (available_tools.filter (fun s => !(failed.contains s))).contains
        "search_wikipedia") = true
  · by_cases c2 : failed.contains "create_plot" = true
    · simp only [c1, c2, eq_self_iff_true, if_true, List.cons_append,
        List.singleton_append, List.nil_append, List.append_nil]
    · rw [Bool.not_eq_true] at c2
      simp only [c1, c2, eq_self_iff_true, if_true, Bool.false_eq_true, if_false,
        List.cons_append, List.singleton_append, List.nil_append, List.append_nil]
  · rw [Bool.not_eq_true] at c1
    by_cases c2 : failed.contains "create_plot" = true
    · simp only [c1, c2, eq_self_iff_true, if_true, Bool.false_eq_true, if_false,
        List.cons_append, List.singleton_append, List.nil_append, List.append_nil]
    · rw [Bool.not_eq_true] at c2
      simp only [c1, c2, Bool.false_eq_true, if_false, List.nil_append, List.append_nil]

theorem degradationFirstSentence_data_ne_nil (failed : List String) :
    (degradationFirstSentence failed).data ≠ [] := by
  unfold degradationFirstSentence
  exact data_ne_nil_of_left _ _ (data_ne_nil_of_left _ _ (data_ne_nil_of_left _ _
    (data_ne_nil_of_left _ _ (by decide))))

/-! ### C8 -/

/-- C8: the degradation notice is the empty string iff the failed set is
empty; when every known tool has failed it is the built-in-knowledge-only
notice; otherwise it contains every failed capability name, the Wikipedia
substitution sentence whenever web search failed while the Wikipedia lookup
still works, and the numeric-only sentence whenever the plotter failed — and
in particular, after the agent records a failure of "search" with message
"Rate limit exceeded", the failed set contains "search" and the notice is
non-empty and mentions "search". -/
theorem degradation_notice_spec (failed : List String) (t : String) :
    (get_degradation_message failed = "" ↔ failed = []) ∧
      (available_tools.filter (fun s => !(failed.contains s)) = [] → failed ≠ [] →
        get_degradation_message failed =
          "All tools are currently unavailable. I can only provide information from my training data.") ∧
      (t ∈ failed → available_tools.filter (fun s => !(failed.contains s)) ≠ [] →
        strContains (get_degradation_message failed) t = true) ∧
      (failed.contains "web_search" = true → failed.contains "search_wikipedia" = false →
        strContains (get_degradation_message failed)
          "Using Wikipedia for fact lookup instead of web search." = true) ∧
      (failed.contains "create_plot" = true →
        available_tools.filter (fun s => !(failed.contains s)) ≠ [] →
        strContains (get_degradation_message failed)
          "Unable to generate visualizations. Providing numerical results only." = true) ∧
      ((_handle_tool_failure (demoState 3) ⟨[]⟩ "search"
          "Rate limit exceeded").1.failed_tools.contains "search" = true ∧
        ¬ get_degradation_message (_handle_tool_failure (demoState 3) ⟨[]⟩ "search"
            "Rate limit exceeded").1.failed_tools = "" ∧
        strContains
          (get_degradation_message (_handle_tool_failure (demoState 3) ⟨[]⟩ "search"
            "Rate limit exceeded").1.failed_tools) "search" = true) := by
  refine ⟨⟨?_, ?_⟩, ?_, ?_, ?_, ?_, by decide, by decide, by decide⟩
  · intro h
    by_contra hne
    by_cases hw : available_tools.filter (fun s => !(failed.contains s)) = []
    · simp only [get_degradation_message, if_neg hne, if_pos hw] at h
      exact absurd h (by decide)
    · rw [degradation_normal failed hne hw] at h
      exact strJoin_cons_ne_empty " " _ _ (degradationFirstSentence_data_ne_nil failed) h
  · intro h
    subst h
    rfl
  · intro hw hne
    simp only [get_degradation_message, if_neg hne, if_pos hw]
  · intro hmem hw
    have hne := List.ne_nil_of_mem hmem
    rw [degradation_normal failed hne hw]
    apply strContains_strJoin_cons
    unfold degradationFirstSentence
    exact strContains_append_right_of _ _ _ (strContains_append_right_of _ _ _
      (strContains_append_right_of _ _ _
        (strContains_append_left_of _ _ _ (strContains_strJoin ", " hmem))))
  · intro hws hwiki
    have hmemw : "search_wikipedia" ∈
        available_tools.filter (fun s => !(failed.contains s)) := by
      refine List.mem_filter.mpr ⟨by decide, ?_⟩
      rw [hwiki]
      rfl
    have hw := List.ne_nil_of_mem hmemw
    have hne : failed ≠ [] := by
      intro h
      subst h
      exact absurd hws (by decide)
    rw [degradation_normal failed hne hw]
    have hcw : (available_tools.filter (fun s => !(failed.contains s))).contains
        "search_wikipedia" = true := List.elem_iff.mpr hmemw
    have hc1 : (failed.contains "web_search" &&
        (available_tools.filter (fun s => !(failed.contains s))).contains
          "search_wikipedia") = true := by
      rw [hws, hcw]
      rfl
    simp only [hc1, eq_self_iff_true, if_true]
    exact strContains_strJoin " " (by simp)
  · intro hcp hw
    have hne : failed ≠ [] := by
      intro h
      subst h
      exact absurd hcp (by decide)
    rw [degradation_normal failed hne hw]
    simp only [hcp, eq_self_iff_true, if_true]
    exact strContains_strJoin " " (by simp)

/-- Witness for C8: the notice for a failed "search" capability mentions
"search". -/
theorem degradation_notice_spec_witness :
    strContains (get_degradation_message ["search"]) "search" = true :=
  (degradation_notice_spec ["search"] "search").2.2.1 (by decide) (by decide)

/-! ### C9 -/

/-- Counterexample to C9 as stated: the error-handler path that records a
classified capability failure builds, for the message "invalid api key", an
error value with category `AUTHENTICATION` but severity `WARNING`
(Authentication is not transient, and `handle_tool_error` assigns `WARNING`
to every non-transient category), not `CRITICAL`. -/
theorem auth_severity_counterexample :
    (handle_tool_error ⟨[]⟩ "web_search" "invalid api key").1.category =
        ErrorCategory.AUTHENTICATION ∧
      (handle_tool_error ⟨[]⟩ "web_search" "invalid api key").1.severity =
        ErrorSeverity.WARNING ∧
      ErrorSeverity.WARNING ≠ ErrorSeverity.CRITICAL := by
  refine ⟨by decide, by decide, by decide⟩

/-- C9 (amended): every error value constructed by the dedicated
`AuthenticationError` class has category `AUTHENTICATION` and severity
`CRITICAL`, and no other dedicated error-class constructor produces the
`AUTHENTICATION` category — but the error-handler path that records a
classified capability failure assigns severity `WARNING`, not `CRITICAL`,
to messages it classifies as `AUTHENTICATION` (because Authentication is
not transient). -/
theorem auth_critical_except_handler (msg tool : String) (tn sug mk2 : Option String)
    (ra : Option Nat) (hst : ErrorHandlerState) :
    (mkAuthenticationError msg tn mk2).category = ErrorCategory.AUTHENTICATION ∧
      (mkAuthenticationError msg tn mk2).severity = ErrorSeverity.CRITICAL ∧
      (mkAPIError msg tn sug).category ≠ ErrorCategory.AUTHENTICATION ∧
      (mkNetworkError msg tn).category ≠ ErrorCategory.AUTHENTICATION ∧
      (mkRateLimitError msg tn ra).category ≠ ErrorCategory.AUTHENTICATION ∧
      (mkExecutionError msg).category ≠ ErrorCategory.AUTHENTICATION ∧
      (mkTimeoutError msg tn).category ≠ ErrorCategory.AUTHENTICATION ∧
      (classify_error msg = ErrorCategory.AUTHENTICATION →
        (handle_tool_error hst tool msg).1.severity = ErrorSeverity.WARNING) := by
  refine ⟨rfl, rfl,
    (by decide : ErrorCategory.API_ERROR ≠ ErrorCategory.AUTHENTICATION),
    (by decide : ErrorCategory.NETWORK_ERROR ≠ ErrorCategory.AUTHENTICATION),
    (by decide : ErrorCategory.RATE_LIMIT ≠ ErrorCategory.AUTHENTICATION),
    (by decide : ErrorCategory.EXECUTION ≠ ErrorCategory.AUTHENTICATION),
    (by decide : ErrorCategory.TIMEOUT ≠ ErrorCategory.AUTHENTICATION), ?_⟩
  · intro h
    simp only [handle_tool_error, mkKosmoError, h]
    rfl

/-- Witness for the amended C9: the class constructor yields Critical, the
handler path yields Warning for an authentication-classified message. -/
theorem auth_critical_except_handler_witness :
    (mkAuthenticationError "bad key" none none).severity = ErrorSeverity.CRITICAL ∧
      (handle_tool_error ⟨[]⟩ "web_search" "401 unauthorized").1.severity =
        ErrorSeverity.WARNING :=
  ⟨(auth_critical_except_handler "bad key" "web_search" none none none none ⟨[]⟩).2.1,
    (auth_critical_except_handler "401 unauthorized" "web_search" none none none none
      ⟨[]⟩).2.2.2.2.2.2.2 (by decide)⟩

end Kosmo

